import Mathlib

/-!
Verification of the MDigitalArtz Leonardo API helper
(src/mdigitalartz_leonardo.ts).

The script is a stateless HTTP client for Leonardo's image-generation
service. It exposes four operations: `generateImagesPhoenix`,
`generateImagesAnimeXL`, `fetchGeneration` and `upscaleImage`. Each builds
a JSON payload from its arguments, issues one axios request with a bearer
Authorization header, and returns `response.data`; axios rejects with an
error carrying the response when the status is outside 2xx, and with a
plain connection error when the request never reaches the service.

The embedding below models JSON payloads as ordered association lists of
field name / value pairs, numbers as rationals (every numeric literal in
the script is exactly representable), and the transport as a function from
requests to either a status/body response or a network error. Each source
function becomes a pure request builder plus a run function applying the
axios semantics to the built request.
-/

namespace Leonardo

/-- A JSON value as used in the script's payloads: strings, numbers
(rationals; all numeric literals of the script are exact) and booleans. -/
inductive JsonVal where
  | str (s : String)
  | num (q : ℚ)
  | bool (b : Bool)
deriving DecidableEq, Repr

/-- A JSON object payload, as the ordered list of its fields. -/
abbrev Payload := List (String × JsonVal)

/-- HTTP method of a request; the script uses only axios.get and
axios.post. -/
inductive Method where
  | get
  | post
deriving DecidableEq, Repr

/-- An HTTP request as the script hands it to axios: method, URL, headers,
and an optional JSON body. -/
structure HttpRequest where
  method : Method
  url : String
  headers : List (String × String)
  body : Option Payload
deriving DecidableEq, Repr

/-- What the transport layer reports for a request: either a response with
a status code and a decoded body, or a connection-level error. -/
inductive TransportResult where
  | response (status : ℕ) (body : JsonVal)
  | netError (msg : String)
deriving DecidableEq, Repr

/-- The transport underneath axios: how the network answers each request. -/
abbrev Transport := HttpRequest → TransportResult

/-- The failures a caller of the script can observe: axios rejects a
non-2xx response with an error carrying the status and body
(RequestFailure), and a connection error with a plain message
(TransportFailure). The script catches neither, so both propagate. -/
inductive ClientFailure where
  | requestFailure (status : ℕ) (body : JsonVal)
  | transportFailure (msg : String)
deriving DecidableEq, Repr

/-- Axios semantics for one call, line 52/92/111/148 of the script: issue
exactly one request; resolve with the decoded body when the status is in
[200, 300) (axios's default validateStatus), reject with the status and
body otherwise, reject with the message on a connection error. The first
component records the requests actually issued (always exactly one: axios
performs no retries and the script adds none). -/
def axiosExec (t : Transport) (req : HttpRequest) :
    List HttpRequest × Except ClientFailure JsonVal :=
  ⟨[req],
    match t req with
    | .response s b =>
        if 200 ≤ s ∧ s < 300 then .ok b else .error (.requestFailure s b)
    | .netError m => .error (.transportFailure m)⟩

/-- Line 17: the API key, a string literal in the source. -/
def API_KEY : String := "cd8d7691-5ec5-48e1-9c6b-7160900f59a5"

/-- Line 19: the fixed Phoenix model identifier. -/
def PHOENIX_MODEL_ID : String := "de7d3faf-762f-48e0-b3b7-9d0ac3a3fcf3"

/-- Line 20: the fixed Anime XL model identifier. -/
def ANIME_XL_MODEL_ID : String := "e71a1c2f-4f80-4800-934f-2c68979d8cc8"

/-- Headers of every POST in the script (lines 56-59, 96-99, 152-155):
bearer Authorization plus Content-Type application/json. -/
def postHeaders : List (String × String) :=
  [("Authorization", "Bearer " ++ API_KEY),
   ("Content-Type", "application/json")]

/-- Headers of the GET in `fetchGeneration` (lines 114-116): bearer
Authorization only. -/
def getHeaders : List (String × String) :=
  [("Authorization", "Bearer " ++ API_KEY)]

/-- Lines 42-51: the payload object built by `generateImagesPhoenix`, in
source order. -/
def phoenixPayload (prompt : String) (width height numImages contrast : ℚ)
    (styleUUID : String) (alchemy : Bool) : Payload :=
  [("modelId", .str PHOENIX_MODEL_ID),
   ("prompt", .str prompt),
   ("width", .num width),
   ("height", .num height),
   ("num_images", .num numImages),
   ("contrast", .num contrast),
   ("alchemy", .bool alchemy),
   ("styleUUID", .str styleUUID)]

/-- Lines 52-61: the request `generateImagesPhoenix` hands to axios.post. -/
def generateImagesPhoenixRequest (prompt : String)
    (width height numImages contrast : ℚ) (styleUUID : String)
    (alchemy : Bool) : HttpRequest :=
  ⟨.post, "https://cloud.leonardo.ai/api/rest/v1/generations", postHeaders,
   some (phoenixPayload prompt width height numImages contrast styleUUID alchemy)⟩

/-- Lines 33-63: `generateImagesPhoenix`, run against a transport. -/
def generateImagesPhoenix (t : Transport) (prompt : String)
    (width height numImages contrast : ℚ) (styleUUID : String)
    (alchemy : Bool) : List HttpRequest × Except ClientFailure JsonVal :=
  axiosExec t
    (generateImagesPhoenixRequest prompt width height numImages contrast styleUUID alchemy)

/-- Lines 35-40: the default parameter values of `generateImagesPhoenix`,
i.e. the request built when the function is invoked with only a prompt
(width 1216, height 1520, numImages 4, contrast 3.5, the fixed default
styleUUID, alchemy true). -/
def generateImagesPhoenixDefaultRequest (prompt : String) : HttpRequest :=
  generateImagesPhoenixRequest prompt 1216 1520 4 (7/2)
    "a5632c7c-ddbb-4e2f-ba34-8456ab3ac436" true

/-- Lines 83-91: the payload object built by `generateImagesAnimeXL`, in
source order. -/
def animeXLPayload (prompt : String) (width height numImages : ℚ)
    (presetStyle : String) (alchemy : Bool) : Payload :=
  [("modelId", .str ANIME_XL_MODEL_ID),
   ("prompt", .str prompt),
   ("width", .num width),
   ("height", .num height),
   ("num_images", .num numImages),
   ("alchemy", .bool alchemy),
   ("presetStyle", .str presetStyle)]

/-- Lines 92-101: the request `generateImagesAnimeXL` hands to axios.post. -/
def generateImagesAnimeXLRequest (prompt : String)
    (width height numImages : ℚ) (presetStyle : String)
    (alchemy : Bool) : HttpRequest :=
  ⟨.post, "https://cloud.leonardo.ai/api/rest/v1/generations", postHeaders,
   some (animeXLPayload prompt width height numImages presetStyle alchemy)⟩

/-- Lines 75-103: `generateImagesAnimeXL`, run against a transport. -/
def generateImagesAnimeXL (t : Transport) (prompt : String)
    (width height numImages : ℚ) (presetStyle : String)
    (alchemy : Bool) : List HttpRequest × Except ClientFailure JsonVal :=
  axiosExec t (generateImagesAnimeXLRequest prompt width height numImages presetStyle alchemy)

/-- Lines 77-81: the default parameter values of `generateImagesAnimeXL`,
i.e. the request built when the function is invoked with only a prompt. -/
def generateImagesAnimeXLDefaultRequest (prompt : String) : HttpRequest :=
  generateImagesAnimeXLRequest prompt 1216 1520 4 "CINEMATIC" true

/-- Lines 111-118: the request `fetchGeneration` hands to axios.get. The
URL is the template literal of line 112: the base generations URL with the
generationId concatenated, no body. -/
def fetchGenerationRequest (generationId : String) : HttpRequest :=
  ⟨.get,
   "https://cloud.leonardo.ai/api/rest/v1/generations/" ++ generationId,
   getHeaders, none⟩

/-- Lines 110-120: `fetchGeneration`, run against a transport. -/
def fetchGeneration (t : Transport) (generationId : String) :
    List HttpRequest × Except ClientFailure JsonVal :=
  axiosExec t (fetchGenerationRequest generationId)

/-- Lines 140-147: the payload object built by `upscaleImage`, in source
order. -/
def upscalePayload (generatedImageId : String)
    (upscaleMultiplier : ℚ) (ultraUpscaleStyle : String)
    (creativityStrength detailContrast similarity : ℚ) : Payload :=
  [("ultraUpscaleStyle", .str ultraUpscaleStyle),
   ("creativityStrength", .num creativityStrength),
   ("detailContrast", .num detailContrast),
   ("similarity", .num similarity),
   ("upscaleMultiplier", .num upscaleMultiplier),
   ("generatedImageId", .str generatedImageId)]

/-- Lines 148-157: the request `upscaleImage` hands to axios.post. -/
def upscaleImageRequest (generatedImageId : String)
    (upscaleMultiplier : ℚ) (ultraUpscaleStyle : String)
    (creativityStrength detailContrast similarity : ℚ) : HttpRequest :=
  ⟨.post, "https://cloud.leonardo.ai/api/rest/v1/variations/universal-upscaler",
   postHeaders,
   some (upscalePayload generatedImageId upscaleMultiplier ultraUpscaleStyle
     creativityStrength detailContrast similarity)⟩

/-- Lines 132-159: `upscaleImage`, run against a transport. -/
def upscaleImage (t : Transport) (generatedImageId : String)
    (upscaleMultiplier : ℚ) (ultraUpscaleStyle : String)
    (creativityStrength detailContrast similarity : ℚ) :
    List HttpRequest × Except ClientFailure JsonVal :=
  axiosExec t (upscaleImageRequest generatedImageId upscaleMultiplier
    ultraUpscaleStyle creativityStrength detailContrast similarity)

/-- Lines 134-138: the default parameter values of `upscaleImage`, i.e.
the request built when the function is invoked with only a generated image
id (multiplier 1.5, style ARTISTIC, the three strength parameters 5). -/
def upscaleImageDefaultRequest (generatedImageId : String) : HttpRequest :=
  upscaleImageRequest generatedImageId (3/2) "ARTISTIC" 5 5 5

/-- One invocation of any of the script's four operations, with its
arguments. -/
inductive Op where
  | phoenix (prompt : String) (width height numImages contrast : ℚ)
      (styleUUID : String) (alchemy : Bool)
  | animeXL (prompt : String) (width height numImages : ℚ)
      (presetStyle : String) (alchemy : Bool)
  | fetchGen (generationId : String)
  | upscale (generatedImageId : String) (upscaleMultiplier : ℚ)
      (ultraUpscaleStyle : String)
      (creativityStrength detailContrast similarity : ℚ)
deriving DecidableEq, Repr

/-- The request an operation hands to axios. -/
def Op.request : Op → HttpRequest
  | .phoenix prompt width height numImages contrast styleUUID alchemy =>
      generateImagesPhoenixRequest prompt width height numImages contrast styleUUID alchemy
  | .animeXL prompt width height numImages presetStyle alchemy =>
      generateImagesAnimeXLRequest prompt width height numImages presetStyle alchemy
  | .fetchGen generationId => fetchGenerationRequest generationId
  | .upscale generatedImageId upscaleMultiplier ultraUpscaleStyle
      creativityStrength detailContrast similarity =>
      upscaleImageRequest generatedImageId upscaleMultiplier ultraUpscaleStyle
        creativityStrength detailContrast similarity

/-- Running an operation against a transport: the requests issued and the
outcome the caller sees. -/
def Op.run (o : Op) (t : Transport) :
    List HttpRequest × Except ClientFailure JsonVal :=
  axiosExec t o.request

/-- The names of a payload's fields, in order. -/
def payloadNames (p : Payload) : List String := p.map Prod.fst

/-- The value of a request's Authorization header, when present. -/
def authHeaderValue (r : HttpRequest) : Option String :=
  List.lookup "Authorization" r.headers

/-- Modelled from the spec: the configuration/secrets provider the spec
says supplies the bearer token (the source has no such collaborator; its
key is the literal of line 17). It holds the externally loaded credential. -/
structure ExternalConfig where
  apiKey : String
deriving DecidableEq, Repr

/-- Modelled from the spec: the Authorization header value a client using
the externally loaded credential would send. -/
def specAuthHeader (cfg : ExternalConfig) : String :=
  "Bearer " ++ cfg.apiKey
/-- C1: for every input tuple, the payload built by each generate
operation has exactly the fields of the spec's interface table for its
variant — modelId, prompt, width, height, num_images plus (contrast,
alchemy, styleUUID) for Phoenix or (alchemy, presetStyle) for AnimeXL —
with no extraneous fields, and its modelId field equals the variant's
fixed model-identifier constant. -/
theorem generate_payload_fields_exact (prompt styleUUID presetStyle : String)
    (width height numImages contrast : ℚ) (alchemy : Bool) :
    ((generateImagesPhoenixRequest prompt width height numImages contrast styleUUID alchemy).body
        = some (phoenixPayload prompt width height numImages contrast styleUUID alchemy)
      ∧ payloadNames (phoenixPayload prompt width height numImages contrast styleUUID alchemy)
        = ["modelId", "prompt", "width", "height", "num_images", "contrast",
           "alchemy", "styleUUID"]
      ∧ List.lookup "modelId" (phoenixPayload prompt width height numImages contrast styleUUID alchemy)
        = some (.str PHOENIX_MODEL_ID))
    ∧ ((generateImagesAnimeXLRequest prompt width height numImages presetStyle alchemy).body
        = some (animeXLPayload prompt width height numImages presetStyle alchemy)
      ∧ payloadNames (animeXLPayload prompt width height numImages presetStyle alchemy)
        = ["modelId", "prompt", "width", "height", "num_images", "alchemy",
           "presetStyle"]
      ∧ List.lookup "modelId" (animeXLPayload prompt width height numImages presetStyle alchemy)
        = some (.str ANIME_XL_MODEL_ID)) :=
  ⟨⟨rfl, rfl, rfl⟩, ⟨rfl, rfl, rfl⟩⟩

/-- C2: invoking the Phoenix generate operation with only a prompt (all
other parameters at their source defaults) builds exactly the payload
with the Phoenix model id, the prompt, width 1216, height 1520,
num_images 4, contrast 3.5, alchemy true, and the fixed default
styleUUID. -/
theorem phoenix_default_invocation (prompt : String) :
    (generateImagesPhoenixDefaultRequest prompt).body
      = some [("modelId", .str "de7d3faf-762f-48e0-b3b7-9d0ac3a3fcf3"),
              ("prompt", .str prompt),
              ("width", .num 1216),
              ("height", .num 1520),
              ("num_images", .num 4),
              ("contrast", .num (7/2)),
              ("alchemy", .bool true),
              ("styleUUID", .str "a5632c7c-ddbb-4e2f-ba34-8456ab3ac436")] :=
  rfl

/-- C3: invoking the AnimeXL generate operation with only a prompt (all
other parameters at their source defaults) builds exactly the payload
with the AnimeXL model id, the prompt, width 1216, height 1520,
num_images 4, alchemy true, and presetStyle CINEMATIC. -/
theorem animeXL_default_invocation (prompt : String) :
    (generateImagesAnimeXLDefaultRequest prompt).body
      = some [("modelId", .str "e71a1c2f-4f80-4800-934f-2c68979d8cc8"),
              ("prompt", .str prompt),
              ("width", .num 1216),
              ("height", .num 1520),
              ("num_images", .num 4),
              ("alchemy", .bool true),
              ("presetStyle", .str "CINEMATIC")] :=
  rfl

/-- C4: `upscaleImage` with no overrides builds exactly the payload
with ultraUpscaleStyle ARTISTIC, creativityStrength 5, detailContrast 5,
similarity 5, upscaleMultiplier 1.5, and the given generatedImageId,
posted to the universal-upscaler endpoint. -/
theorem upscale_default_invocation (generatedImageId : String) :
    (upscaleImageDefaultRequest generatedImageId).method = .post
    ∧ (upscaleImageDefaultRequest generatedImageId).url
        = "https://cloud.leonardo.ai/api/rest/v1/variations/universal-upscaler"
    ∧ (upscaleImageDefaultRequest generatedImageId).body
      = some [("ultraUpscaleStyle", .str "ARTISTIC"),
              ("creativityStrength", .num 5),
              ("detailContrast", .num 5),
              ("similarity", .num 5),
              ("upscaleMultiplier", .num (3/2)),
              ("generatedImageId", .str generatedImageId)] :=
  ⟨rfl, rfl, rfl⟩

/-- C5: `fetchGeneration` issues a GET with the generationId interpolated
into the generations path, carries no request body, and when the service
answers with a 2xx status it returns the decoded response body
unchanged. -/
theorem fetchGeneration_get_spec (generationId : String) (t : Transport)
    (s : ℕ) (b : JsonVal) :
    (fetchGenerationRequest generationId).method = .get
    ∧ (fetchGenerationRequest generationId).url
        = "https://cloud.leonardo.ai/api/rest/v1/generations/" ++ generationId
    ∧ (fetchGenerationRequest generationId).body = none
    ∧ (t (fetchGenerationRequest generationId) = .response s b →
        200 ≤ s → s < 300 → (fetchGeneration t generationId).2 = .ok b) := by
  refine ⟨rfl, rfl, rfl, ?_⟩
  intro ht h1 h2
  simp [fetchGeneration, axiosExec, ht, h1, h2]

/-- A transport whose every answer is a 200 response with body "done". -/
def transportOk : Transport := fun _ => .response 200 (.str "done")

/-- Witness for C5 at generationId abc123 against `transportOk`. -/
theorem fetchGeneration_get_spec_witness :
    (fetchGeneration transportOk "abc123").2 = .ok (.str "done") :=
  (fetchGeneration_get_spec "abc123" transportOk 200 (.str "done")).2.2.2
    rfl (by decide) (by decide)
/-- C6: for every operation, a non-2xx response yields a RequestFailure
carrying the original status and body unmodified; a connection error
yields a TransportFailure, which is distinguishable from any
RequestFailure; and exactly one request is issued, so the failure reaches
the caller with no local retry, recovery, or transformation. -/
theorem failure_propagation (o : Op) (t : Transport) (s : ℕ) (b : JsonVal)
    (m : String) :
    (t o.request = .response s b → ¬ (200 ≤ s ∧ s < 300) →
        (o.run t).2 = .error (.requestFailure s b))
    ∧ (t o.request = .netError m →
        (o.run t).2 = .error (.transportFailure m))
    ∧ ClientFailure.requestFailure s b ≠ ClientFailure.transportFailure m
    ∧ (o.run t).1 = [o.request] := by
  refine ⟨?_, ?_, ?_, rfl⟩
  · intro ht h
    simp [Op.run, axiosExec, ht, h]
  · intro ht
    simp [Op.run, axiosExec, ht]
  · intro h
    cases h

/-- A transport whose every answer is a 404 response with body
"not found". -/
def transport404 : Transport := fun _ => .response 404 (.str "not found")

/-- A transport that fails at the connection level on every request. -/
def transportDown : Transport := fun _ => .netError "ECONNREFUSED"

/-- Witness for C6: a 404 on `fetchGeneration` surfaces as a
RequestFailure with that status and body, and a connection error surfaces
as a TransportFailure. -/
theorem failure_propagation_witness :
    ((Op.fetchGen "gen1").run transport404).2
        = .error (.requestFailure 404 (.str "not found"))
    ∧ ((Op.fetchGen "gen1").run transportDown).2
        = .error (.transportFailure "ECONNREFUSED") :=
  ⟨(failure_propagation (.fetchGen "gen1") transport404 404
      (.str "not found") "m").1 rfl (by decide),
   (failure_propagation (.fetchGen "gen1") transportDown 404
      (.str "not found") "ECONNREFUSED").2.1 rfl⟩

/-- C7: no operation validates its inputs locally: whatever values are
supplied — including widths and heights that are not multiples of 8 or
out of range, out-of-range contrast or strength values, and unrecognized
style names — land in the payload as-is, the request is sent (exactly one
request is issued before any failure), and a remote rejection surfaces
only as a RequestFailure; this holds for `generateImagesPhoenix`,
`generateImagesAnimeXL` and `upscaleImage`. -/
theorem no_local_validation (prompt styleUUID presetStyle : String)
    (width height numImages contrast : ℚ) (alchemy : Bool)
    (generatedImageId ultraUpscaleStyle : String)
    (upscaleMultiplier creativityStrength detailContrast similarity : ℚ)
    (t : Transport) (s : ℕ) (b : JsonVal) :
    (List.lookup "width" (phoenixPayload prompt width height numImages contrast styleUUID alchemy)
        = some (.num width)
      ∧ List.lookup "height" (phoenixPayload prompt width height numImages contrast styleUUID alchemy)
        = some (.num height)
      ∧ List.lookup "contrast" (phoenixPayload prompt width height numImages contrast styleUUID alchemy)
        = some (.num contrast)
      ∧ List.lookup "styleUUID" (phoenixPayload prompt width height numImages contrast styleUUID alchemy)
        = some (.str styleUUID))
    ∧ (List.lookup "width" (animeXLPayload prompt width height numImages presetStyle alchemy)
        = some (.num width)
      ∧ List.lookup "height" (animeXLPayload prompt width height numImages presetStyle alchemy)
        = some (.num height)
      ∧ List.lookup "presetStyle" (animeXLPayload prompt width height numImages presetStyle alchemy)
        = some (.str presetStyle))
    ∧ (List.lookup "creativityStrength" (upscalePayload generatedImageId upscaleMultiplier ultraUpscaleStyle creativityStrength detailContrast similarity)
        = some (.num creativityStrength)
      ∧ List.lookup "detailContrast" (upscalePayload generatedImageId upscaleMultiplier ultraUpscaleStyle creativityStrength detailContrast similarity)
        = some (.num detailContrast)
      ∧ List.lookup "similarity" (upscalePayload generatedImageId upscaleMultiplier ultraUpscaleStyle creativityStrength detailContrast similarity)
        = some (.num similarity)
      ∧ List.lookup "upscaleMultiplier" (upscalePayload generatedImageId upscaleMultiplier ultraUpscaleStyle creativityStrength detailContrast similarity)
        = some (.num upscaleMultiplier)
      ∧ List.lookup "ultraUpscaleStyle" (upscalePayload generatedImageId upscaleMultiplier ultraUpscaleStyle creativityStrength detailContrast similarity)
        = some (.str ultraUpscaleStyle))
    ∧ (generateImagesPhoenix t prompt width height numImages contrast styleUUID alchemy).1
        = [generateImagesPhoenixRequest prompt width height numImages contrast styleUUID alchemy]
    ∧ (t (generateImagesPhoenixRequest prompt width height numImages contrast styleUUID alchemy)
          = .response s b → ¬ (200 ≤ s ∧ s < 300) →
        (generateImagesPhoenix t prompt width height numImages contrast styleUUID alchemy).2
          = .error (.requestFailure s b))
    ∧ (generateImagesAnimeXL t prompt width height numImages presetStyle alchemy).1
        = [generateImagesAnimeXLRequest prompt width height numImages presetStyle alchemy]
    ∧ (t (generateImagesAnimeXLRequest prompt width height numImages presetStyle alchemy)
          = .response s b → ¬ (200 ≤ s ∧ s < 300) →
        (generateImagesAnimeXL t prompt width height numImages presetStyle alchemy).2
          = .error (.requestFailure s b))
    ∧ (upscaleImage t generatedImageId upscaleMultiplier ultraUpscaleStyle creativityStrength detailContrast similarity).1
        = [upscaleImageRequest generatedImageId upscaleMultiplier ultraUpscaleStyle creativityStrength detailContrast similarity]
    ∧ (t (upscaleImageRequest generatedImageId upscaleMultiplier ultraUpscaleStyle creativityStrength detailContrast similarity)
          = .response s b → ¬ (200 ≤ s ∧ s < 300) →
        (upscaleImage t generatedImageId upscaleMultiplier ultraUpscaleStyle creativityStrength detailContrast similarity).2
          = .error (.requestFailure s b)) := by
  refine ⟨⟨rfl, rfl, rfl, rfl⟩, ⟨rfl, rfl, rfl⟩, ⟨rfl, rfl, rfl, rfl, rfl⟩,
    rfl, ?_, rfl, ?_, rfl, ?_⟩
  · intro ht h
    simp [generateImagesPhoenix, axiosExec, ht, h]
  · intro ht h
    simp [generateImagesAnimeXL, axiosExec, ht, h]
  · intro ht h
    simp [upscaleImage, axiosExec, ht, h]

/-- A transport whose every answer is a 400 response with body
"bad request". -/
def transport400 : Transport := fun _ => .response 400 (.str "bad request")

/-- Witness for C7 at out-of-range inputs (width 513, height 4000,
contrast 9.9, strengths 0 and 7, multiplier 9, made-up style names): all
three payload-building operations still send and surface the remote 400
as a RequestFailure. -/
theorem no_local_validation_witness :
    (generateImagesPhoenix transport400 "p" 513 4000 4 (99/10) "NOT_A_STYLE" true).2
        = .error (.requestFailure 400 (.str "bad request"))
    ∧ (generateImagesAnimeXL transport400 "p" 513 4000 4 "NOT_A_PRESET" true).2
        = .error (.requestFailure 400 (.str "bad request"))
    ∧ (upscaleImage transport400 "img1" 9 "NOT_A_STYLE" 0 0 7).2
        = .error (.requestFailure 400 (.str "bad request")) :=
  ⟨(no_local_validation "p" "NOT_A_STYLE" "NOT_A_PRESET" 513 4000 4 (99/10) true
      "img1" "NOT_A_STYLE" 9 0 0 7 transport400 400 (.str "bad request")).2.2.2.2.1
      rfl (by decide),
   (no_local_validation "p" "NOT_A_STYLE" "NOT_A_PRESET" 513 4000 4 (99/10) true
      "img1" "NOT_A_STYLE" 9 0 0 7 transport400 400 (.str "bad request")).2.2.2.2.2.2.1
      rfl (by decide),
   (no_local_validation "p" "NOT_A_STYLE" "NOT_A_PRESET" 513 4000 4 (99/10) true
      "img1" "NOT_A_STYLE" 9 0 0 7 transport400 400 (.str "bad request")).2.2.2.2.2.2.2.2
      rfl (by decide)⟩
/-- C8: request construction is deterministic: two invocations of the
same operation with identical inputs — run against any two ambient worlds
(transports) — issue the same single request, equal to the pure request
of the operation's arguments, so the client injects no hidden nonce,
timestamp, or other call-varying field into the payload. -/
theorem request_construction_deterministic (o : Op) (t u : Transport) :
    (o.run t).1 = (o.run u).1 ∧ (o.run t).1 = [o.request] :=
  ⟨rfl, rfl⟩

/-- C9 counterexample: the Authorization header of a request is
"Bearer " followed by the literal key embedded at line 17 of the source,
and differs from the header a client using an externally loaded
credential would send — so the header does not depend on an external
configuration/secrets provider. -/
theorem bearer_token_embedded_counterexample :
    authHeaderValue (fetchGenerationRequest "abc123")
        = some "Bearer cd8d7691-5ec5-48e1-9c6b-7160900f59a5"
    ∧ authHeaderValue (fetchGenerationRequest "abc123")
        ≠ some (specAuthHeader ⟨"EXTERNALLY-LOADED-KEY"⟩) := by
  refine ⟨rfl, ?_⟩
  decide

/-- C9 amended: the bearer token is a string literal compiled into the
client: every operation's request carries the Authorization header
"Bearer " ++ API_KEY, where API_KEY is the fixed literal
cd8d7691-5ec5-48e1-9c6b-7160900f59a5 from line 17 of the source, not a
value obtained from a configuration/secrets provider. -/
theorem bearer_token_is_source_literal (o : Op) :
    authHeaderValue o.request = some ("Bearer " ++ API_KEY)
    ∧ API_KEY = "cd8d7691-5ec5-48e1-9c6b-7160900f59a5" := by
  cases o <;> exact ⟨rfl, rfl⟩

/-- C10: `fetchGeneration` splices the generationId into the URL by plain
string concatenation with no escaping: for every generationId the request
URL is exactly the base generations URL followed by the raw characters of
the id, and in particular an id containing the characters /, ? and #
lands in the URL verbatim. -/
theorem fetchGeneration_url_raw_concat (generationId : String) :
    (fetchGenerationRequest generationId).url
        = "https://cloud.leonardo.ai/api/rest/v1/generations/" ++ generationId
    ∧ (fetchGenerationRequest "a/b?c#d").url
        = "https://cloud.leonardo.ai/api/rest/v1/generations/a/b?c#d" :=
  ⟨rfl, rfl⟩

end Leonardo
